import Mathlib

/-!
Verification of the Snowflake batch export pipeline
(posthog/temporal/workflows/snowflake_batch_export.py).

The development shallowly embeds the insert activity, the workflow run
method and the data-interval resolver.  External collaborators (the
ClickHouse client, the results iterator, the Snowflake connector, the
Python json and datetime libraries, Django settings) are modelled as
explicit parameters or as small executable Lean functions; each such
model carries a doc comment saying what it stands for.
-/

namespace SnowflakeBatchExport

/-- Python exceptions that the embedded code can raise.  `remoteError n`
models a failure of the n-th remote Snowflake statement of an activity
invocation (counting from 0), so distinct failure sites raise distinct
exceptions. -/
inductive PyErr where
  | typeError
  | valueError
  | indexError
  | connectionError
  | remoteError (n : Nat)
deriving DecidableEq

/-- The opening-brace character, kept as a named constant. -/
def lbrace : Char := Char.ofNat 123

/-- The closing-brace character, kept as a named constant. -/
def rbrace : Char := Char.ofNat 125

/-- The double-quote character, kept as a named constant. -/
def dquote : Char := Char.ofNat 34

/-- The backslash character, kept as a named constant. -/
def bslash : Char := Char.ofNat 92

/-- Structured JSON values, modelling the values handled by Python's
json module.  Objects and arrays are encoded as cons-chains
(objCons/objNil, arrCons/arrNil) rather than nested lists so that every
function on Json is plain structural recursion. -/
inductive Json where
  | null
  | bool (b : Bool)
  | num (n : Int)
  | str (s : String)
  | objNil
  | objCons (key : String) (val : Json) (rest : Json)
  | arrNil
  | arrCons (val : Json) (rest : Json)
deriving DecidableEq

/-- Whitespace recognizer for the JSON parser. -/
def isWs (c : Char) : Bool :=
  c == ' ' || c == '\t' || c == '\n' || c == '\r'

/-- Drop leading JSON whitespace. -/
def skipWs : List Char → List Char
  | [] => []
  | c :: cs => if isWs c then skipWs cs else c :: cs

/-- Scan the body of a JSON string up to the closing quote.  Models the
escape-free fragment of Python's json string grammar: a backslash makes
the parse fail. -/
def parseStringBody : List Char → Option (List Char × List Char)
  | [] => none
  | c :: cs =>
    if c = dquote then some ([], cs)
    else if c = bslash then none
    else
      match parseStringBody cs with
      | some (body, rest) => some (c :: body, rest)
      | none => none

/-- Accumulate a maximal run of decimal digits. -/
def parseNatAux : Nat → List Char → Nat × List Char
  | acc, [] => (acc, [])
  | acc, c :: cs =>
    if c.isDigit then parseNatAux (acc * 10 + (c.toNat - 48)) cs
    else (acc, c :: cs)

/-- Parse at least one decimal digit. -/
def parseNat : List Char → Option (Nat × List Char)
  | [] => none
  | c :: cs =>
    if c.isDigit then some (parseNatAux (c.toNat - 48) cs) else none

/-- Fuelled JSON parser.  The second argument selects the production:
0 parses one value, 1 parses object members up to the closing brace,
2 parses array elements up to the closing bracket.  Models Python's
json.loads grammar restricted to integer numbers and escape-free
strings. -/
def parseJ : Nat → Nat → List Char → Option (Json × List Char)
  | 0, _, _ => none
  | fuel + 1, 0, cs =>
    match skipWs cs with
    | [] => none
    | c :: cs1 =>
      if c = lbrace then
        match skipWs cs1 with
        | [] => none
        | d :: cs2 =>
          if d = rbrace then some (.objNil, cs2)
          else parseJ fuel 1 (d :: cs2)
      else if c = '[' then
        match skipWs cs1 with
        | [] => none
        | d :: cs2 =>
          if d = ']' then some (.arrNil, cs2)
          else parseJ fuel 2 (d :: cs2)
      else if c = dquote then
        match parseStringBody cs1 with
        | some (body, rest) => some (.str (String.mk body), rest)
        | none => none
      else if c = '-' then
        match parseNat cs1 with
        | some (n, rest) => some (.num (-(n : Int)), rest)
        | none => none
      else if c.isDigit then
        match parseNat (c :: cs1) with
        | some (n, rest) => some (.num (n : Int), rest)
        | none => none
      else
        match c :: cs1 with
        | 'n' :: 'u' :: 'l' :: 'l' :: rest => some (.null, rest)
        | 't' :: 'r' :: 'u' :: 'e' :: rest => some (.bool true, rest)
        | 'f' :: 'a' :: 'l' :: 's' :: 'e' :: rest => some (.bool false, rest)
        | _ => none
  | fuel + 1, 1, cs =>
    match skipWs cs with
    | [] => none
    | q :: cs1 =>
      if q = dquote then
        match parseStringBody cs1 with
        | none => none
        | some (key, rest) =>
          match skipWs rest with
          | ':' :: rest1 =>
            match parseJ fuel 0 rest1 with
            | some (v, rest2) =>
              match skipWs rest2 with
              | ',' :: rest3 =>
                match parseJ fuel 1 rest3 with
                | some (ms, rest4) => some (.objCons (String.mk key) v ms, rest4)
                | none => none
              | d :: rest3 =>
                if d = rbrace then some (.objCons (String.mk key) v .objNil, rest3)
                else none
              | [] => none
            | none => none
          | _ => none
      else none
  | fuel + 1, _ + 2, cs =>
    match parseJ fuel 0 cs with
    | some (v, rest) =>
      match skipWs rest with
      | ',' :: rest1 =>
        match parseJ fuel 2 rest1 with
        | some (es, rest2) => some (.arrCons v es, rest2)
        | none => none
      | ']' :: rest1 => some (.arrCons v .arrNil, rest1)
      | _ => none
    | none => none

/-- Models Python's json.loads: parse a complete JSON document,
raising ValueError (json.JSONDecodeError) on any malformed input such
as the empty string. -/
def jsonLoads (s : String) : Except PyErr Json :=
  match parseJ (2 * s.length + 2) 0 s.data with
  | some (v, rest) =>
    if skipWs rest = [] then .ok v else .error .valueError
  | none => .error .valueError

/-- Renderer used by jsonDumps.  The first component of the result is
the rendering of the value itself; the second is the comma-joined
rendering of the value seen as an object/array chain without the
surrounding brackets (used when rendering the tail of a chain). -/
def jsonDumpsAux : Json → String × String
  | .null => ("null", "null")
  | .bool true => ("true", "true")
  | .bool false => ("false", "false")
  | .num n => (toString n, toString n)
  | .str s =>
    let r := String.singleton dquote ++ s ++ String.singleton dquote
    (r, r)
  | .objNil => (String.singleton lbrace ++ String.singleton rbrace, "")
  | .objCons k v rest =>
    let item := String.singleton dquote ++ k ++ String.singleton dquote ++ ": " ++ (jsonDumpsAux v).1
    let tail := (jsonDumpsAux rest).2
    let inner := if tail = "" then item else item ++ ", " ++ tail
    (String.singleton lbrace ++ inner ++ String.singleton rbrace, inner)
  | .arrNil => ("[]", "")
  | .arrCons v rest =>
    let item := (jsonDumpsAux v).1
    let tail := (jsonDumpsAux rest).2
    let inner := if tail = "" then item else item ++ ", " ++ tail
    ("[" ++ inner ++ "]", inner)

/-- Models Python's json.dumps with its default separators. -/
def jsonDumps (j : Json) : String := (jsonDumpsAux j).1

/-- Modelled from the spec: an EventRecord produced by the missing
results iterator (posthog.temporal.workflows.batch_exports.
get_results_iterator is not part of the source slice).  The fields
follow the source store query contract; timestamps are epoch seconds so
that the interval filter of SELECT_QUERY_TEMPLATE is directly
expressible.  The properties field is the JSON-encoded text blob. -/
structure EventRow where
  uuid : String
  event : String
  distinct_id : String
  team_id : Int
  timestamp : Int
  properties : String
deriving DecidableEq

/-- The WHERE clause of SELECT_QUERY_TEMPLATE: timestamp in
[data_interval_start, data_interval_end) and matching team_id. -/
def matchesSelect (teamId start stop : Int) (r : EventRow) : Bool :=
  decide (start ≤ r.timestamp) && decide (r.timestamp < stop) && decide (r.team_id = teamId)

/-- Modelled from the spec: the rows produced by the missing
get_results_iterator for a team and interval, namely the source rows
that satisfy the WHERE clause of SELECT_QUERY_TEMPLATE, in scan
order. -/
def selectRows (rows : List EventRow) (teamId start stop : Int) : List EventRow :=
  rows.filter (matchesSelect teamId start stop)

/-- Modelled from the spec: the missing get_rows_count, a cheap count
of the rows the iterator would yield. -/
def get_rows_count (rows : List EventRow) (teamId start stop : Int) : Nat :=
  (selectRows rows teamId start stop).length

/-- The JSON object written for one row: the spread of the result
mapping with the properties field replaced by its decoded value, as in
the dict built at line 151 of the activity. -/
def rowJson (r : EventRow) (props : Json) : Json :=
  .objCons "uuid" (.str r.uuid)
    (.objCons "event" (.str r.event)
      (.objCons "distinct_id" (.str r.distinct_id)
        (.objCons "team_id" (.num r.team_id)
          (.objCons "timestamp" (.num r.timestamp)
            (.objCons "properties" props .objNil)))))

/-- One staged line for a row: json.dumps of the row with properties
decoded by json.loads; an error if the properties text is malformed. -/
def serializeRow (r : EventRow) : Except PyErr String :=
  match jsonLoads r.properties with
  | .ok p => .ok (jsonDumps (rowJson r p))
  | .error e => .error e

/-- Total version of serializeRow, used to state happy-path theorems
where every row is assumed to serialize. -/
def serializeRowD (r : EventRow) : String :=
  match serializeRow r with
  | .ok s => s
  | .error _ => ""

/-- Inputs of insert_into_snowflake_activity (the SnowflakeInsertInputs
dataclass). -/
structure SnowflakeInsertInputs where
  team_id : Int
  user : String
  password : String
  account : String
  database : String
  warehouse : String
  schema : String
  table_name : String
  data_interval_start : String
  data_interval_end : String
deriving DecidableEq

/-- A remote Snowflake statement executed through cursor.execute.  The
put statement carries the lines of the flushed temporary file it
uploads; copyInto is the merge-load (COPY INTO ... MATCH_BY_COLUMN_NAME
= CASE_SENSITIVE PURGE = TRUE). -/
inductive Stmt where
  | useDatabase (db : String)
  | useSchema (sc : String)
  | createTable (db sc table : String)
  | put (table : String) (lines : List String)
  | copyInto (table : String)
deriving DecidableEq

/-- Observable events of one activity invocation: the count query
against the source store, opening/closing the Snowflake connection,
opening/closing the numbered temporary staging files, and each remote
statement. -/
inductive Ev where
  | countQuery
  | connOpen
  | connClose
  | bufOpen (i : Nat)
  | bufClose (i : Nat)
  | stmt (s : Stmt)
deriving DecidableEq

/-- One item yielded by the results iterator before StopAsyncIteration:
either a proper (non-empty, hence truthy) row mapping, or an empty
mapping, which is falsy in Python. -/
inductive RowItem where
  | row (r : EventRow)
  | emptyMap
deriving DecidableEq

/-- The external world one activity invocation runs against: the
ClickHouse client liveness, the result of the count query, the items
the results iterator yields, the configured
BATCH_EXPORT_SNOWFLAKE_UPLOAD_CHUNK_SIZE_BYTES setting, and which
remote statements fail (sqlFail i is true when the i-th cursor.execute
raises). -/
structure ActivityEnv where
  isAlive : Bool
  rowsCount : Nat
  stream : List RowItem
  chunkSize : Nat
  sqlFail : Nat → Bool

/-- Mutable state of the activity while the Snowflake connection is
open: the event trace so far, the number of statements executed, the
lines and byte count (file.tell()) of the in-progress temporary file,
and that file's number. -/
structure ActState where
  trace : List Ev
  stmtIdx : Nat
  bufLines : List String
  bufBytes : Nat
  bufId : Nat

/-- The while-True staging loop (lines 138-178 of the activity): fetch
the next item (break on StopAsyncIteration), break on a falsy item,
decode properties with json.loads, append the dumped line plus newline
to the temporary file, and when the file position is non-zero and
exceeds the chunk-size setting, PUT the file, close it and open a fresh
one.  Returns the state at loop exit and the exception, if any, that
aborted the loop. -/
def stageLoop (env : ActivityEnv) (table : String) :
    List RowItem → ActState → ActState × Option PyErr
  | [], st => (st, none)
  | .emptyMap :: _, st => (st, none)
  | .row r :: rest, st =>
    match jsonLoads r.properties with
    | .error e => (st, some e)
    | .ok props =>
      let line := jsonDumps (rowJson r props)
      let newLines := st.bufLines ++ [line]
      let newBytes := st.bufBytes + line.utf8ByteSize + 1
      if newBytes ≠ 0 ∧ newBytes > env.chunkSize then
        if env.sqlFail st.stmtIdx then
          ({ st with
              trace := st.trace ++ [.stmt (.put table newLines)],
              stmtIdx := st.stmtIdx + 1, bufLines := newLines, bufBytes := newBytes },
           some (.remoteError st.stmtIdx))
        else
          stageLoop env table rest
            { trace := st.trace ++
                [.stmt (.put table newLines), .bufClose st.bufId, .bufOpen (st.bufId + 1)],
              stmtIdx := st.stmtIdx + 1, bufLines := [], bufBytes := 0,
              bufId := st.bufId + 1 }
      else
        stageLoop env table rest
          { st with bufLines := newLines, bufBytes := newBytes }

/-- The body of the inner try (lines 138-198): the staging loop, then
the unconditional PUT of the final temporary file, its close, and the
single COPY INTO statement. -/
def insertBody (env : ActivityEnv) (inputs : SnowflakeInsertInputs) (st : ActState) :
    ActState × Except PyErr Unit :=
  match stageLoop env inputs.table_name env.stream st with
  | (st1, some e) => (st1, .error e)
  | (st1, none) =>
    if env.sqlFail st1.stmtIdx then
      ({ st1 with
          trace := st1.trace ++ [.stmt (.put inputs.table_name st1.bufLines)],
          stmtIdx := st1.stmtIdx + 1 },
       .error (.remoteError st1.stmtIdx))
    else if env.sqlFail (st1.stmtIdx + 1) then
      ({ st1 with
          trace := st1.trace ++
            [.stmt (.put inputs.table_name st1.bufLines), .bufClose st1.bufId,
             .stmt (.copyInto inputs.table_name)],
          stmtIdx := st1.stmtIdx + 2 },
       .error (.remoteError (st1.stmtIdx + 1)))
    else
      ({ st1 with
          trace := st1.trace ++
            [.stmt (.put inputs.table_name st1.bufLines), .bufClose st1.bufId,
             .stmt (.copyInto inputs.table_name)],
          stmtIdx := st1.stmtIdx + 2 },
       .ok ())

/-- The state right after the three setup statements succeeded and the
first temporary file was opened (lines 104-136): trace holds the count
query, the connection opening, the USE DATABASE / USE SCHEMA /
CREATE TABLE IF NOT EXISTS statements and the opening of temporary file
number 0; three statements have been executed and the file is empty. -/
def initialState (inputs : SnowflakeInsertInputs) : ActState :=
  { trace := [Ev.countQuery, Ev.connOpen,
      Ev.stmt (Stmt.useDatabase inputs.database),
      Ev.stmt (Stmt.useSchema inputs.schema),
      Ev.stmt (Stmt.createTable inputs.database inputs.schema inputs.table_name),
      Ev.bufOpen 0],
    stmtIdx := 3, bufLines := [], bufBytes := 0, bufId := 0 }

/-- The insert activity (insert_into_snowflake_activity): check source
liveness (raise ConnectionError when dead), run the count query and
return early when it is zero, otherwise connect to Snowflake and, under
try/finally blocks that close the temporary file and the connection,
select database (statement 0) and schema (statement 1), create the
table if absent (statement 2) — a failure of any of these closes the
connection and re-raises before any temporary file is opened — then
open the first temporary file and run the staging loop followed by the
final PUT and the COPY INTO.  Returns the event trace and the activity
outcome. -/
def insert_into_snowflake_activity (inputs : SnowflakeInsertInputs) (env : ActivityEnv) :
    List Ev × Except PyErr Unit :=
  if env.isAlive = false then ([], .error .connectionError)
  else if env.rowsCount = 0 then ([Ev.countQuery], .ok ())
  else if env.sqlFail 0 then
    ([Ev.countQuery, Ev.connOpen, Ev.stmt (Stmt.useDatabase inputs.database), Ev.connClose],
     .error (.remoteError 0))
  else if env.sqlFail 1 then
    ([Ev.countQuery, Ev.connOpen, Ev.stmt (Stmt.useDatabase inputs.database),
      Ev.stmt (Stmt.useSchema inputs.schema), Ev.connClose],
     .error (.remoteError 1))
  else if env.sqlFail 2 then
    ([Ev.countQuery, Ev.connOpen, Ev.stmt (Stmt.useDatabase inputs.database),
      Ev.stmt (Stmt.useSchema inputs.schema),
      Ev.stmt (Stmt.createTable inputs.database inputs.schema inputs.table_name),
      Ev.connClose],
     .error (.remoteError 2))
  else
    match insertBody env inputs (initialState inputs) with
    | (st3, res) => (st3.trace ++ [Ev.bufClose st3.bufId, Ev.connClose], res)

/-- Project the remote statements out of a trace. -/
def stmtsOf : List Ev → List Stmt
  | [] => []
  | .stmt s :: rest => s :: stmtsOf rest
  | _ :: rest => stmtsOf rest

/-- Concatenate the lines of every PUT statement, in order. -/
def putLines : List Stmt → List String
  | [] => []
  | .put _ ls :: rest => ls ++ putLines rest
  | _ :: rest => putLines rest

/-- All staged lines of a trace: the concatenation, in statement order,
of the contents of every file uploaded by a PUT. -/
def stagedLines (tr : List Ev) : List String := putLines (stmtsOf tr)

/-- Recognizer for PUT statements. -/
def isPut : Stmt → Bool
  | .put _ _ => true
  | _ => false

/-- Recognizer for COPY INTO statements. -/
def isCopy : Stmt → Bool
  | .copyInto _ => true
  | _ => false

/-- Number of staging (PUT) calls in a trace. -/
def countPuts (tr : List Ev) : Nat := ((stmtsOf tr).filter isPut).length

/-- Number of merge-load (COPY INTO) calls in a trace. -/
def countCopies (tr : List Ev) : Nat := ((stmtsOf tr).filter isCopy).length

/-- Recognizer for buffer-open events. -/
def isBufOpenEv : Ev → Bool
  | .bufOpen _ => true
  | _ => false

/-- Number of temporary staging files opened during a trace. -/
def countBufOpens (tr : List Ev) : Nat := (tr.filter isBufOpenEv).length

/-- Every temporary staging file opened in the trace, other than the
current one, has been closed in the trace. -/
def bufsClosed (tr : List Ev) (cur : Nat) : Prop :=
  ∀ j, Ev.bufOpen j ∈ tr → j = cur ∨ Ev.bufClose j ∈ tr

/-- Whether a row's properties text is well-formed JSON, so that
json.loads succeeds on it. -/
def propertiesParse (r : EventRow) : Bool :=
  match jsonLoads r.properties with
  | .ok _ => true
  | .error _ => false

/-- Read two decimal digits. -/
def twoDigits (a b : Char) : Option Nat :=
  if a.isDigit ∧ b.isDigit then some ((a.toNat - 48) * 10 + (b.toNat - 48)) else none

/-- Read four decimal digits. -/
def fourDigits (a b c d : Char) : Option Nat :=
  if a.isDigit ∧ b.isDigit ∧ c.isDigit ∧ d.isDigit then
    some ((a.toNat - 48) * 1000 + (b.toNat - 48) * 100 + (c.toNat - 48) * 10 + (d.toNat - 48))
  else none

/-- Injective encoding of a calendar date-time as seconds, standing in
for the POSIX value of a datetime; only the injectivity of the encoding
and the seconds scale matter to the theorems below. -/
def encodeDateTime (y mo d h mi s : Nat) : Int :=
  Int.ofNat (((((y * 12 + (mo - 1)) * 31 + (d - 1)) * 24 + h) * 60 + mi) * 60 + s)

/-- Models Python's datetime.fromisoformat restricted to the
YYYY-MM-DD HH:MM:SS layout (space or T separator); any other string,
including the empty string, raises ValueError as in CPython. -/
def fromisoformat (s : String) : Except PyErr Int :=
  match s.data with
  | [y1, y2, y3, y4, h1, mo1, mo2, h2, d1, d2, sep, hh1, hh2, c1, mi1, mi2, c2, s1, s2] =>
    if h1 = '-' ∧ h2 = '-' ∧ (sep = ' ' ∨ sep = 'T') ∧ c1 = ':' ∧ c2 = ':' then
      match fourDigits y1 y2 y3 y4, twoDigits mo1 mo2, twoDigits d1 d2,
          twoDigits hh1 hh2, twoDigits mi1 mi2, twoDigits s1 s2 with
      | some y, some mo, some d, some h, some mi, some sec =>
        if 1 ≤ mo ∧ mo ≤ 12 ∧ 1 ≤ d ∧ d ≤ 31 ∧ h ≤ 23 ∧ mi ≤ 59 ∧ sec ≤ 59 then
          .ok (encodeDateTime y mo d h mi sec)
        else .error .valueError
      | _, _, _, _, _, _ => .error .valueError
    else .error .valueError
  | _ => .error .valueError

/-- One value of the TemporalScheduledStartTime search attribute list:
a string, a datetime, or a value of some other type. -/
inductive SearchAttrVal where
  | str (s : String)
  | datetime (d : Int)
  | other
deriving DecidableEq

/-- Resolution of the interval end (lines 308-338): when the explicit
data_interval_end input is falsy (absent or empty), read the
TemporalScheduledStartTime search attribute — TypeError when the
attribute is missing, IndexError when the list is empty, the parsed or
given value when its first element is a string or a datetime, TypeError
otherwise; when the explicit input is a non-empty string, parse it. -/
def resolveIntervalEnd (data_interval_end : Option String)
    (searchAttr : Option (List SearchAttrVal)) : Except PyErr Int :=
  if data_interval_end.getD "" = "" then
    match searchAttr with
    | none => .error .typeError
    | some [] => .error .indexError
    | some (.str s :: _) => fromisoformat s
    | some (.datetime d :: _) => .ok d
    | some (.other :: _) => .error .typeError
  else fromisoformat (data_interval_end.getD "")

/-- The resolver get_data_interval_from_workflow_inputs: resolve the
interval end and return (end - 3600 seconds, end). -/
def get_data_interval_from_workflow_inputs (data_interval_end : Option String)
    (searchAttr : Option (List SearchAttrVal)) : Except PyErr (Int × Int) :=
  match resolveIntervalEnd data_interval_end searchAttr with
  | .error e => .error e
  | .ok endT => .ok (endT - 3600, endT)

/-- The non_retryable_error_types of the RetryPolicy the workflow uses
for the create_export_run activity (lines 239-242). -/
def create_run_non_retryable_error_types : List String :=
  ["NotNullViolation", "IntegrityError"]

/-- The non_retryable_error_types of the RetryPolicy the workflow uses
for the insert activity (lines 265-274). -/
def insert_non_retryable_error_types : List String :=
  ["ConnectionError", "ValueError"]

/-- One invocation of the update_export_run_status activity: the run id
it was given and the status string of its UpdateBatchExportRunStatusInputs. -/
structure UpdateCall where
  runId : Nat
  status : String
deriving DecidableEq

/-- Outcome of one workflow run: how many times create_export_run was
invoked, the update_export_run_status invocations in order, and the
workflow result (the error field holds the exception the workflow run
re-raises). -/
structure WorkflowResult where
  createCalls : Nat
  updateCalls : List UpdateCall
  result : Except PyErr Unit

/-- The external activity outcomes one workflow run observes: the
search attributes of workflow.info(), the result of the
create_export_run activity, and the result of the insert activity. -/
structure WorkflowEnv where
  searchAttr : Option (List SearchAttrVal)
  createResult : Except PyErr Nat
  insertResult : Except PyErr Unit

/-- The workflow run method (SnowflakeBatchExportWorkflow.run): resolve
the interval, execute create_export_run, build update inputs with
status Completed, then under a finally that executes
update_export_run_status, await the insert activity; on an exception
set the status to Failed and re-raise the original exception after the
status update. -/
def workflowRun (data_interval_end : Option String) (env : WorkflowEnv) : WorkflowResult :=
  match get_data_interval_from_workflow_inputs data_interval_end env.searchAttr with
  | .error e => { createCalls := 0, updateCalls := [], result := .error e }
  | .ok _ =>
    match env.createResult with
    | .error e => { createCalls := 1, updateCalls := [], result := .error e }
    | .ok runId =>
      match env.insertResult with
      | .ok _ =>
        { createCalls := 1, updateCalls := [⟨runId, "Completed"⟩], result := .ok () }
      | .error e =>
        { createCalls := 1, updateCalls := [⟨runId, "Failed"⟩], result := .error e }

lemma stmtsOf_append (a b : List Ev) : stmtsOf (a ++ b) = stmtsOf a ++ stmtsOf b := by
  induction a with
  | nil => rfl
  | cons e rest ih => cases e <;> simp [stmtsOf, ih]

lemma putLines_append (a b : List Stmt) : putLines (a ++ b) = putLines a ++ putLines b := by
  induction a with
  | nil => rfl
  | cons s rest ih => cases s <;> simp [putLines, ih]

lemma stagedLines_append (a b : List Ev) :
    stagedLines (a ++ b) = stagedLines a ++ stagedLines b := by
  simp [stagedLines, stmtsOf_append, putLines_append]

lemma countPuts_append (a b : List Ev) : countPuts (a ++ b) = countPuts a + countPuts b := by
  simp [countPuts, stmtsOf_append, List.filter_append]

lemma countCopies_append (a b : List Ev) :
    countCopies (a ++ b) = countCopies a + countCopies b := by
  simp [countCopies, stmtsOf_append, List.filter_append]

lemma countBufOpens_append (a b : List Ev) :
    countBufOpens (a ++ b) = countBufOpens a + countBufOpens b := by
  simp [countBufOpens, List.filter_append]

lemma propertiesParse_ok {r : EventRow} (h : propertiesParse r = true) :
    ∃ p, jsonLoads r.properties = .ok p := by
  unfold propertiesParse at h
  cases hj : jsonLoads r.properties with
  | ok p => exact ⟨p, rfl⟩
  | error e => rw [hj] at h; cases h

lemma stageLoop_happy (env : ActivityEnv) (table : String)
    (hf : ∀ i, env.sqlFail i = false) :
    ∀ (rs : List EventRow) (st : ActState),
      (∀ r ∈ rs, propertiesParse r = true) →
      (stageLoop env table (rs.map RowItem.row) st).2 = none ∧
      stagedLines (stageLoop env table (rs.map RowItem.row) st).1.trace ++
          (stageLoop env table (rs.map RowItem.row) st).1.bufLines =
        stagedLines st.trace ++ st.bufLines ++ rs.map serializeRowD ∧
      ∃ ps : List (List String),
        stmtsOf (stageLoop env table (rs.map RowItem.row) st).1.trace =
          stmtsOf st.trace ++ ps.map (Stmt.put table) := by
  intro rs
  induction rs with
  | nil =>
    intro st _
    exact ⟨rfl, by simp [stageLoop], ⟨[], by simp [stageLoop]⟩⟩
  | cons r rest ih =>
    intro st hp
    obtain ⟨p, hj⟩ := propertiesParse_ok (hp r (List.mem_cons_self r rest))
    have hD : serializeRowD r = jsonDumps (rowJson r p) := by
      simp [serializeRowD, serializeRow, hj]
    have hrest : ∀ r' ∈ rest, propertiesParse r' = true :=
      fun r' hr' => hp r' (List.mem_cons_of_mem r hr')
    simp only [List.map_cons, stageLoop, hj]
    by_cases hb :
        st.bufBytes + (jsonDumps (rowJson r p)).utf8ByteSize + 1 ≠ 0 ∧
        st.bufBytes + (jsonDumps (rowJson r p)).utf8ByteSize + 1 > env.chunkSize
    · rw [if_pos hb]
      simp only [hf, Bool.false_eq_true, if_false]
      obtain ⟨ih1, ih2, ps, ih3⟩ := ih
        { trace := st.trace ++
            [Ev.stmt (Stmt.put table (st.bufLines ++ [jsonDumps (rowJson r p)])),
             Ev.bufClose st.bufId, Ev.bufOpen (st.bufId + 1)],
          stmtIdx := st.stmtIdx + 1, bufLines := [], bufBytes := 0,
          bufId := st.bufId + 1 } hrest
      refine ⟨ih1, ?_, ?_⟩
      · rw [ih2]
        simp [stagedLines_append, stagedLines, stmtsOf_append, putLines_append,
          stmtsOf, putLines, hD]
      · refine ⟨(st.bufLines ++ [jsonDumps (rowJson r p)]) :: ps, ?_⟩
        rw [ih3]
        simp [stmtsOf_append, stmtsOf]
    · rw [if_neg hb]
      obtain ⟨ih1, ih2, ps, ih3⟩ := ih
        { st with
          bufLines := st.bufLines ++ [jsonDumps (rowJson r p)],
          bufBytes := st.bufBytes + (jsonDumps (rowJson r p)).utf8ByteSize + 1 } hrest
      refine ⟨ih1, ?_, ⟨ps, ih3⟩⟩
      rw [ih2]
      simp [hD]

lemma stageLoop_stop_emptyMap (env : ActivityEnv) (table : String) :
    ∀ (rs : List EventRow) (tail : List RowItem) (st : ActState),
      stageLoop env table (rs.map RowItem.row ++ (RowItem.emptyMap :: tail)) st =
        stageLoop env table (rs.map RowItem.row) st := by
  intro rs
  induction rs with
  | nil => intro tail st; simp [stageLoop]
  | cons r rest ih =>
    intro tail st
    simp only [List.map_cons, List.cons_append, stageLoop]
    cases hj : jsonLoads r.properties with
    | error e => rfl
    | ok p =>
      dsimp only
      split_ifs with h1 h2
      · rfl
      · exact ih tail _
      · exact ih tail _

lemma stageLoop_chunk0 (env : ActivityEnv) (table : String)
    (hf : ∀ i, env.sqlFail i = false) (hc : env.chunkSize = 0) :
    ∀ (rs : List EventRow) (st : ActState),
      (∀ r ∈ rs, propertiesParse r = true) →
      countPuts (stageLoop env table (rs.map RowItem.row) st).1.trace =
        countPuts st.trace + rs.length ∧
      countBufOpens (stageLoop env table (rs.map RowItem.row) st).1.trace =
        countBufOpens st.trace + rs.length := by
  intro rs
  induction rs with
  | nil => intro st _; simp [stageLoop]
  | cons r rest ih =>
    intro st hp
    obtain ⟨p, hj⟩ := propertiesParse_ok (hp r (List.mem_cons_self r rest))
    have hrest : ∀ r' ∈ rest, propertiesParse r' = true :=
      fun r' hr' => hp r' (List.mem_cons_of_mem r hr')
    simp only [List.map_cons, stageLoop, hj]
    rw [if_pos (by simp [hc])]
    simp only [hf, Bool.false_eq_true, if_false]
    obtain ⟨ih1, ih2⟩ := ih
      { trace := st.trace ++
          [Ev.stmt (Stmt.put table (st.bufLines ++ [jsonDumps (rowJson r p)])),
           Ev.bufClose st.bufId, Ev.bufOpen (st.bufId + 1)],
        stmtIdx := st.stmtIdx + 1, bufLines := [], bufBytes := 0,
        bufId := st.bufId + 1 } hrest
    have e1 : countPuts
        [Ev.stmt (Stmt.put table (st.bufLines ++ [jsonDumps (rowJson r p)])),
         Ev.bufClose st.bufId, Ev.bufOpen (st.bufId + 1)] = 1 := rfl
    have e2 : countBufOpens
        [Ev.stmt (Stmt.put table (st.bufLines ++ [jsonDumps (rowJson r p)])),
         Ev.bufClose st.bufId, Ev.bufOpen (st.bufId + 1)] = 1 := rfl
    constructor
    · rw [ih1]
      dsimp only
      rw [countPuts_append, e1]
      simp only [List.length_cons]
      omega
    · rw [ih2]
      dsimp only
      rw [countBufOpens_append, e2]
      simp only [List.length_cons]
      omega

lemma bufsClosed_append_nonopen (tr : List Ev) (cur : Nat) (evs : List Ev)
    (h : bufsClosed tr cur) (h2 : ∀ j, Ev.bufOpen j ∉ evs) :
    bufsClosed (tr ++ evs) cur := by
  intro j hj
  rcases List.mem_append.mp hj with hj1 | hj1
  · rcases h j hj1 with h3 | h3
    · exact Or.inl h3
    · exact Or.inr (List.mem_append_left _ h3)
  · exact absurd hj1 (h2 j)

lemma stageLoop_bufsClosed (env : ActivityEnv) (table : String) :
    ∀ (items : List RowItem) (st : ActState), bufsClosed st.trace st.bufId →
      bufsClosed (stageLoop env table items st).1.trace
        (stageLoop env table items st).1.bufId := by
  intro items
  induction items with
  | nil => intro st h; exact h
  | cons item rest ih =>
    intro st h
    cases item with
    | emptyMap => exact h
    | row r =>
      simp only [stageLoop]
      cases hj : jsonLoads r.properties with
      | error e => exact h
      | ok p =>
        dsimp only
        split_ifs with h1 h2
        · exact bufsClosed_append_nonopen _ _ _ h (by simp)
        · apply ih
          intro j hj2
          rcases List.mem_append.mp hj2 with hj3 | hj3
          · rcases h j hj3 with h4 | h4
            · subst h4
              exact Or.inr (List.mem_append_right _ (by simp))
            · exact Or.inr (List.mem_append_left _ h4)
          · simp only [List.mem_cons, List.not_mem_nil, or_false] at hj3
            rcases hj3 with hj4 | hj4 | hj4
            · cases hj4
            · cases hj4
            · exact Or.inl (Ev.bufOpen.inj hj4)
        · exact ih _ h

lemma insertBody_happy (env : ActivityEnv) (inputs : SnowflakeInsertInputs)
    (st st1 : ActState) (hf : ∀ i, env.sqlFail i = false)
    (h : stageLoop env inputs.table_name env.stream st = (st1, none)) :
    (insertBody env inputs st).2 = .ok () ∧
    (insertBody env inputs st).1.trace =
      st1.trace ++ [Ev.stmt (Stmt.put inputs.table_name st1.bufLines),
        Ev.bufClose st1.bufId, Ev.stmt (Stmt.copyInto inputs.table_name)] ∧
    (insertBody env inputs st).1.bufId = st1.bufId := by
  simp [insertBody, h, hf]

lemma insertBody_bufsClosed (env : ActivityEnv) (inputs : SnowflakeInsertInputs)
    (st : ActState) (h : bufsClosed st.trace st.bufId) :
    bufsClosed (insertBody env inputs st).1.trace (insertBody env inputs st).1.bufId := by
  have hsl := stageLoop_bufsClosed env inputs.table_name env.stream st h
  rcases hE : stageLoop env inputs.table_name env.stream st with ⟨st1, err⟩
  rw [hE] at hsl
  cases err with
  | some e =>
    simp only [insertBody, hE]
    exact hsl
  | none =>
    simp only [insertBody, hE]
    split_ifs with h1 h2
    · exact bufsClosed_append_nonopen _ _ _ hsl (by simp)
    · exact bufsClosed_append_nonopen _ _ _ hsl (by simp)
    · exact bufsClosed_append_nonopen _ _ _ hsl (by simp)

lemma activity_unfold (inputs : SnowflakeInsertInputs) (env : ActivityEnv)
    (halive : env.isAlive = true) (hcount : env.rowsCount ≠ 0)
    (hf : ∀ i, env.sqlFail i = false) :
    insert_into_snowflake_activity inputs env =
      ((insertBody env inputs (initialState inputs)).1.trace ++
         [Ev.bufClose (insertBody env inputs (initialState inputs)).1.bufId, Ev.connClose],
       (insertBody env inputs (initialState inputs)).2) := by
  rcases hB : insertBody env inputs (initialState inputs) with ⟨st3, res⟩
  simp [insert_into_snowflake_activity, halive, hcount, hf, hB]

lemma activity_rows_characterization (inputs : SnowflakeInsertInputs)
    (env : ActivityEnv) (rs : List EventRow)
    (halive : env.isAlive = true) (hcount : env.rowsCount ≠ 0)
    (hf : ∀ i, env.sqlFail i = false)
    (hsl : stageLoop env inputs.table_name env.stream (initialState inputs) =
      stageLoop env inputs.table_name (rs.map RowItem.row) (initialState inputs))
    (hp : ∀ r ∈ rs, propertiesParse r = true) :
    stagedLines (insert_into_snowflake_activity inputs env).1 = rs.map serializeRowD ∧
    (insert_into_snowflake_activity inputs env).2 = .ok () ∧
    ∃ ps : List (List String),
      stmtsOf (insert_into_snowflake_activity inputs env).1 =
        [Stmt.useDatabase inputs.database, Stmt.useSchema inputs.schema,
         Stmt.createTable inputs.database inputs.schema inputs.table_name] ++
        ps.map (Stmt.put inputs.table_name) ++ [Stmt.copyInto inputs.table_name] := by
  have hact := activity_unfold inputs env halive hcount hf
  have hh := stageLoop_happy env inputs.table_name hf rs (initialState inputs) hp
  rcases hE : stageLoop env inputs.table_name (rs.map RowItem.row) (initialState inputs)
    with ⟨st1, err⟩
  rw [hE] at hh
  obtain ⟨h0, h2, ps, h3⟩ := hh
  dsimp only at h0 h2 h3
  subst h0
  have hE' : stageLoop env inputs.table_name env.stream (initialState inputs) = (st1, none) := by
    rw [hsl, hE]
  obtain ⟨b1, b2, b3⟩ := insertBody_happy env inputs (initialState inputs) st1 hf hE'
  rw [hact]
  dsimp only
  have c3 : stagedLines (initialState inputs).trace = [] := rfl
  have c4 : (initialState inputs).bufLines = [] := rfl
  rw [c3, c4] at h2
  simp only [List.nil_append, List.append_nil] at h2
  refine ⟨?_, b1, ?_⟩
  · rw [stagedLines_append, b2, stagedLines_append]
    have c1 : stagedLines
        [Ev.stmt (Stmt.put inputs.table_name st1.bufLines), Ev.bufClose st1.bufId,
         Ev.stmt (Stmt.copyInto inputs.table_name)] = st1.bufLines := by
      simp [stagedLines, stmtsOf, putLines]
    have c2 : stagedLines
        [Ev.bufClose (insertBody env inputs (initialState inputs)).1.bufId,
         Ev.connClose] = ([] : List String) := rfl
    rw [c1, c2]
    simpa using h2
  · refine ⟨ps ++ [st1.bufLines], ?_⟩
    rw [stmtsOf_append, b2, stmtsOf_append, h3]
    have c5 : stmtsOf (initialState inputs).trace =
        [Stmt.useDatabase inputs.database, Stmt.useSchema inputs.schema,
         Stmt.createTable inputs.database inputs.schema inputs.table_name] := rfl
    have c6 : stmtsOf
        [Ev.stmt (Stmt.put inputs.table_name st1.bufLines), Ev.bufClose st1.bufId,
         Ev.stmt (Stmt.copyInto inputs.table_name)] =
        [Stmt.put inputs.table_name st1.bufLines, Stmt.copyInto inputs.table_name] := rfl
    have c7 : stmtsOf
        [Ev.bufClose (insertBody env inputs (initialState inputs)).1.bufId,
         Ev.connClose] = ([] : List Stmt) := rfl
    rw [c5, c6, c7]
    simp

/-- C1: for every non-empty interval, when the count and the stream
come from the source query (rows with timestamp in [start, stop) and
the given team), every failure-free run of the insert activity stages
exactly the serializations of those rows, in stream order, each with
its properties field decoded from JSON text into a structured value —
each such row exactly once, and no row outside the interval or from
another team — and the activity completes. -/
theorem staged_rows_match_interval
    (rows : List EventRow) (teamId start stop : Int)
    (inputs : SnowflakeInsertInputs) (env : ActivityEnv)
    (hne : start < stop)
    (halive : env.isAlive = true)
    (hstream : env.stream = (selectRows rows teamId start stop).map RowItem.row)
    (hcount : env.rowsCount = get_rows_count rows teamId start stop)
    (hf : ∀ i, env.sqlFail i = false)
    (hp : ∀ r ∈ selectRows rows teamId start stop, propertiesParse r = true) :
    stagedLines (insert_into_snowflake_activity inputs env).1 =
      (selectRows rows teamId start stop).map serializeRowD ∧
    (insert_into_snowflake_activity inputs env).2 = .ok () := by
  by_cases hz : get_rows_count rows teamId start stop = 0
  · have hsel : selectRows rows teamId start stop = [] :=
      List.length_eq_zero.mp hz
    have hz' : env.rowsCount = 0 := by rw [hcount]; exact hz
    constructor
    · simp [insert_into_snowflake_activity, halive, hz', hsel, stagedLines, stmtsOf, putLines]
    · simp [insert_into_snowflake_activity, halive, hz']
  · have hcount' : env.rowsCount ≠ 0 := by rw [hcount]; exact hz
    obtain ⟨g1, g2, _⟩ := activity_rows_characterization inputs env
      (selectRows rows teamId start stop) halive hcount' hf (by rw [hstream]) hp
    exact ⟨g1, g2⟩

/-- C1 witness: a concrete run over four source rows — two in-window
rows of team 1, one out-of-window row of team 1 and one in-window row
of team 2 — stages exactly the two in-window team-1 rows. -/
theorem staged_rows_match_interval_witness :
    stagedLines (insert_into_snowflake_activity
        ⟨1, "user", "password", "account", "db", "wh", "schema", "events", "s", "e"⟩
        ⟨true, 2,
          [RowItem.row ⟨"u1", "login", "d1", 1, 50, "\x7b\x7d"⟩,
           RowItem.row ⟨"u2", "click", "d2", 1, 80, "\x7b\x22a\x22: 1\x7d"⟩],
          1000000, fun _ => false⟩).1 =
      [serializeRowD ⟨"u1", "login", "d1", 1, 50, "\x7b\x7d"⟩,
       serializeRowD ⟨"u2", "click", "d2", 1, 80, "\x7b\x22a\x22: 1\x7d"⟩] ∧
    (insert_into_snowflake_activity
        ⟨1, "user", "password", "account", "db", "wh", "schema", "events", "s", "e"⟩
        ⟨true, 2,
          [RowItem.row ⟨"u1", "login", "d1", 1, 50, "\x7b\x7d"⟩,
           RowItem.row ⟨"u2", "click", "d2", 1, 80, "\x7b\x22a\x22: 1\x7d"⟩],
          1000000, fun _ => false⟩).2 = .ok () :=
  staged_rows_match_interval
    [⟨"u1", "login", "d1", 1, 50, "\x7b\x7d"⟩,
     ⟨"u0", "login", "d0", 1, 200, "\x7b\x7d"⟩,
     ⟨"u2", "click", "d2", 1, 80, "\x7b\x22a\x22: 1\x7d"⟩,
     ⟨"u3", "click", "d3", 2, 60, "\x7b\x7d"⟩]
    1 0 100
    ⟨1, "user", "password", "account", "db", "wh", "schema", "events", "s", "e"⟩
    ⟨true, 2,
      [RowItem.row ⟨"u1", "login", "d1", 1, 50, "\x7b\x7d"⟩,
       RowItem.row ⟨"u2", "click", "d2", 1, 80, "\x7b\x22a\x22: 1\x7d"⟩],
      1000000, fun _ => false⟩
    (by decide) rfl (by decide) (by decide) (fun _ => rfl) (by decide)

/-- C3: for every failure-free invocation that performs staging (the
count is non-zero), the remote statements are executed in the strict
order USE DATABASE, USE SCHEMA, CREATE TABLE IF NOT EXISTS, one PUT per
sealed temporary file in arrival order, and a single final COPY INTO;
no PUT occurs after the COPY INTO and the COPY INTO runs exactly
once. -/
theorem remote_statement_order (inputs : SnowflakeInsertInputs) (env : ActivityEnv)
    (rs : List EventRow)
    (halive : env.isAlive = true) (hcount : env.rowsCount ≠ 0)
    (hf : ∀ i, env.sqlFail i = false)
    (hstream : env.stream = rs.map RowItem.row)
    (hp : ∀ r ∈ rs, propertiesParse r = true) :
    (∃ ps : List (List String),
      stmtsOf (insert_into_snowflake_activity inputs env).1 =
        [Stmt.useDatabase inputs.database, Stmt.useSchema inputs.schema,
         Stmt.createTable inputs.database inputs.schema inputs.table_name] ++
        ps.map (Stmt.put inputs.table_name) ++ [Stmt.copyInto inputs.table_name]) ∧
    countCopies (insert_into_snowflake_activity inputs env).1 = 1 := by
  obtain ⟨_, _, ps, h3⟩ := activity_rows_characterization inputs env rs
    halive hcount hf (by rw [hstream]) hp
  refine ⟨⟨ps, h3⟩, ?_⟩
  unfold countCopies
  rw [h3]
  have hps : (ps.map (Stmt.put inputs.table_name)).filter isCopy = [] := by
    rw [List.filter_eq_nil_iff]
    intro s hs
    obtain ⟨ls, _, hls⟩ := List.mem_map.mp hs
    rw [← hls]
    simp [isCopy]
  simp [List.filter_append, hps, isCopy]

/-- C3 witness: a concrete one-row failure-free run executes the three
setup statements, then the PUTs, then one final COPY INTO. -/
theorem remote_statement_order_witness :
    countCopies (insert_into_snowflake_activity
      ⟨1, "user", "password", "account", "db", "wh", "schema", "events", "s", "e"⟩
      ⟨true, 1, [RowItem.row ⟨"u1", "login", "d1", 1, 50, "\x7b\x7d"⟩],
        1000000, fun _ => false⟩).1 = 1 :=
  (remote_statement_order
    ⟨1, "user", "password", "account", "db", "wh", "schema", "events", "s", "e"⟩
    ⟨true, 1, [RowItem.row ⟨"u1", "login", "d1", 1, 50, "\x7b\x7d"⟩],
      1000000, fun _ => false⟩
    [⟨"u1", "login", "d1", 1, 50, "\x7b\x7d"⟩]
    rfl (by decide) (fun _ => rfl) rfl (by decide)).2

/-- C10: when the results iterator yields a falsy value (an empty
mapping) somewhere in the stream, the staging loop stops there: the
falsy value and everything after it are neither serialized nor staged,
yet the activity still performs the final PUT and the single COPY INTO
and completes normally. -/
theorem falsy_row_stops_staging_loop (inputs : SnowflakeInsertInputs)
    (env : ActivityEnv) (rs : List EventRow) (tail : List RowItem)
    (halive : env.isAlive = true) (hcount : env.rowsCount ≠ 0)
    (hf : ∀ i, env.sqlFail i = false)
    (hstream : env.stream = rs.map RowItem.row ++ (RowItem.emptyMap :: tail))
    (hp : ∀ r ∈ rs, propertiesParse r = true) :
    stagedLines (insert_into_snowflake_activity inputs env).1 = rs.map serializeRowD ∧
    (insert_into_snowflake_activity inputs env).2 = .ok () ∧
    ∃ ps : List (List String),
      stmtsOf (insert_into_snowflake_activity inputs env).1 =
        [Stmt.useDatabase inputs.database, Stmt.useSchema inputs.schema,
         Stmt.createTable inputs.database inputs.schema inputs.table_name] ++
        ps.map (Stmt.put inputs.table_name) ++ [Stmt.copyInto inputs.table_name] :=
  activity_rows_characterization inputs env rs halive hcount hf
    (by rw [hstream]; exact stageLoop_stop_emptyMap env inputs.table_name rs tail _) hp

/-- C10 witness: with one proper row, then an empty mapping, then a
further row, only the first row is staged and the run completes. -/
theorem falsy_row_stops_staging_loop_witness :
    stagedLines (insert_into_snowflake_activity
        ⟨1, "user", "password", "account", "db", "wh", "schema", "events", "s", "e"⟩
        ⟨true, 3,
          [RowItem.row ⟨"u1", "login", "d1", 1, 50, "\x7b\x7d"⟩, RowItem.emptyMap,
           RowItem.row ⟨"u2", "click", "d2", 1, 80, "\x7b\x7d"⟩],
          1000000, fun _ => false⟩).1 =
      [serializeRowD ⟨"u1", "login", "d1", 1, 50, "\x7b\x7d"⟩] ∧
    (insert_into_snowflake_activity
        ⟨1, "user", "password", "account", "db", "wh", "schema", "events", "s", "e"⟩
        ⟨true, 3,
          [RowItem.row ⟨"u1", "login", "d1", 1, 50, "\x7b\x7d"⟩, RowItem.emptyMap,
           RowItem.row ⟨"u2", "click", "d2", 1, 80, "\x7b\x7d"⟩],
          1000000, fun _ => false⟩).2 = .ok () := by
  obtain ⟨g1, g2, _⟩ := falsy_row_stops_staging_loop
    ⟨1, "user", "password", "account", "db", "wh", "schema", "events", "s", "e"⟩
    ⟨true, 3,
      [RowItem.row ⟨"u1", "login", "d1", 1, 50, "\x7b\x7d"⟩, RowItem.emptyMap,
       RowItem.row ⟨"u2", "click", "d2", 1, 80, "\x7b\x7d"⟩],
      1000000, fun _ => false⟩
    [⟨"u1", "login", "d1", 1, 50, "\x7b\x7d"⟩]
    [RowItem.row ⟨"u2", "click", "d2", 1, 80, "\x7b\x7d"⟩]
    rfl (by decide) (fun _ => rfl) rfl (by decide)
  exact ⟨g1, g2⟩

/-- C4 counterexample: with a threshold forcing one row per chunk
(chunk size 0) and N = 1 in-window row, the activity performs 2 staging
(PUT) calls, not N = 1: after the loop PUTs the single sealed row, the
final — here empty — temporary file is unconditionally PUT as well
(lines 180-186).  The merge-load still runs exactly once. -/
theorem staging_calls_exceed_row_count :
    countPuts (insert_into_snowflake_activity
      ⟨1, "user", "password", "account", "db", "wh", "schema", "events", "s", "e"⟩
      ⟨true, 1, [RowItem.row ⟨"u1", "login", "d1", 1, 50, "\x7b\x7d"⟩],
        0, fun _ => false⟩).1 = 2 ∧
    countCopies (insert_into_snowflake_activity
      ⟨1, "user", "password", "account", "db", "wh", "schema", "events", "s", "e"⟩
      ⟨true, 1, [RowItem.row ⟨"u1", "login", "d1", 1, 50, "\x7b\x7d"⟩],
        0, fun _ => false⟩).1 = 1 := by
  constructor <;> rfl

/-- C4 amended: with a threshold forcing one row per chunk (chunk size
0) and N in-window rows, the activity performs exactly N + 1 staging
calls — one per sealed row plus one for the final (empty) temporary
file, which is always staged even though it is below the threshold —
the number of staging calls equals the number of temporary files
opened, and the single merge-load comes after all of them. -/
theorem staging_calls_one_per_row_plus_final (inputs : SnowflakeInsertInputs)
    (env : ActivityEnv) (rs : List EventRow)
    (halive : env.isAlive = true) (hchunk : env.chunkSize = 0)
    (hstream : env.stream = rs.map RowItem.row)
    (hcount : env.rowsCount = rs.length) (hne : rs ≠ [])
    (hf : ∀ i, env.sqlFail i = false)
    (hp : ∀ r ∈ rs, propertiesParse r = true) :
    countPuts (insert_into_snowflake_activity inputs env).1 = rs.length + 1 ∧
    countBufOpens (insert_into_snowflake_activity inputs env).1 = rs.length + 1 ∧
    ∃ ps : List (List String),
      stmtsOf (insert_into_snowflake_activity inputs env).1 =
        [Stmt.useDatabase inputs.database, Stmt.useSchema inputs.schema,
         Stmt.createTable inputs.database inputs.schema inputs.table_name] ++
        ps.map (Stmt.put inputs.table_name) ++ [Stmt.copyInto inputs.table_name] := by
  have hcount' : env.rowsCount ≠ 0 := by
    have hlen : 0 < rs.length := List.length_pos.mpr hne
    rw [hcount]
    omega
  obtain ⟨_, _, shape⟩ := activity_rows_characterization inputs env rs
    halive hcount' hf (by rw [hstream]) hp
  have hact := activity_unfold inputs env halive hcount' hf
  obtain ⟨k1, k2⟩ := stageLoop_chunk0 env inputs.table_name hf hchunk rs (initialState inputs) hp
  rcases hE : stageLoop env inputs.table_name (rs.map RowItem.row) (initialState inputs)
    with ⟨st1, err⟩
  rw [hE] at k1 k2
  dsimp only at k1 k2
  obtain ⟨h0, _, _⟩ := stageLoop_happy env inputs.table_name hf rs (initialState inputs) hp
  rw [hE] at h0
  dsimp only at h0
  subst h0
  have hE' : stageLoop env inputs.table_name env.stream (initialState inputs) = (st1, none) := by
    rw [hstream, hE]
  obtain ⟨b1, b2, b3⟩ := insertBody_happy env inputs (initialState inputs) st1 hf hE'
  have p0 : countPuts (initialState inputs).trace = 0 := rfl
  have o0 : countBufOpens (initialState inputs).trace = 1 := rfl
  refine ⟨?_, ?_, shape⟩
  · rw [hact]
    dsimp only
    rw [countPuts_append, b2, countPuts_append, k1, p0]
    have pa : countPuts
        [Ev.stmt (Stmt.put inputs.table_name st1.bufLines), Ev.bufClose st1.bufId,
         Ev.stmt (Stmt.copyInto inputs.table_name)] = 1 := rfl
    have pb : countPuts
        [Ev.bufClose (insertBody env inputs (initialState inputs)).1.bufId,
         Ev.connClose] = 0 := rfl
    rw [pa, pb]
    omega
  · rw [hact]
    dsimp only
    rw [countBufOpens_append, b2, countBufOpens_append, k2, o0]
    have oa : countBufOpens
        [Ev.stmt (Stmt.put inputs.table_name st1.bufLines), Ev.bufClose st1.bufId,
         Ev.stmt (Stmt.copyInto inputs.table_name)] = 0 := rfl
    have ob : countBufOpens
        [Ev.bufClose (insertBody env inputs (initialState inputs)).1.bufId,
         Ev.connClose] = 0 := rfl
    rw [oa, ob]
    omega

/-- C4 amended witness: two rows under a one-row-per-chunk threshold
give exactly three staging calls. -/
theorem staging_calls_one_per_row_plus_final_witness :
    countPuts (insert_into_snowflake_activity
      ⟨1, "user", "password", "account", "db", "wh", "schema", "events", "s", "e"⟩
      ⟨true, 2,
        [RowItem.row ⟨"u1", "login", "d1", 1, 50, "\x7b\x7d"⟩,
         RowItem.row ⟨"u2", "click", "d2", 1, 80, "\x7b\x7d"⟩],
        0, fun _ => false⟩).1 = 3 :=
  (staging_calls_one_per_row_plus_final
    ⟨1, "user", "password", "account", "db", "wh", "schema", "events", "s", "e"⟩
    ⟨true, 2,
      [RowItem.row ⟨"u1", "login", "d1", 1, 50, "\x7b\x7d"⟩,
       RowItem.row ⟨"u2", "click", "d2", 1, 80, "\x7b\x7d"⟩],
      0, fun _ => false⟩
    [⟨"u1", "login", "d1", 1, 50, "\x7b\x7d"⟩, ⟨"u2", "click", "d2", 1, 80, "\x7b\x7d"⟩]
    rfl rfl rfl rfl (by decide) (fun _ => rfl) (by decide)).1

/-- C5 counterexample: on a zero-row interval the activity returns
right after the count query (line 90), before connecting to Snowflake:
it executes no destination statement at all — in particular it does NOT
create the destination table, contradicting the claim that table
creation is the (only) destination-side side effect — while the
workflow still records the run as Completed. -/
theorem zero_rows_no_table_creation :
    insert_into_snowflake_activity
      ⟨1, "user", "password", "account", "db", "wh", "schema", "events", "s", "e"⟩
      ⟨true, 0, [], 0, fun _ => false⟩ = ([Ev.countQuery], .ok ()) ∧
    stmtsOf (insert_into_snowflake_activity
      ⟨1, "user", "password", "account", "db", "wh", "schema", "events", "s", "e"⟩
      ⟨true, 0, [], 0, fun _ => false⟩).1 = [] ∧
    workflowRun (some "2023-04-20 14:40:00")
      ⟨none, .ok 7,
       (insert_into_snowflake_activity
         ⟨1, "user", "password", "account", "db", "wh", "schema", "events", "s", "e"⟩
         ⟨true, 0, [], 0, fun _ => false⟩).2⟩ =
      ⟨1, [⟨7, "Completed"⟩], .ok ()⟩ :=
  ⟨rfl, rfl, rfl⟩

/-- C5 amended: on a zero-row interval the activity issues no
destination-side statement at all (no staging, no merge-load, and no
table creation either — the early return precedes the Snowflake
connection), and the pipeline still reaches Completed status. -/
theorem zero_rows_no_destination_statements (inputs : SnowflakeInsertInputs)
    (env : ActivityEnv)
    (halive : env.isAlive = true) (hzero : env.rowsCount = 0) :
    insert_into_snowflake_activity inputs env = ([Ev.countQuery], .ok ()) ∧
    stmtsOf (insert_into_snowflake_activity inputs env).1 = [] ∧
    ∀ (endStr : Option String) (attr : Option (List SearchAttrVal)) (runId : Nat)
      (iv : Int × Int),
      get_data_interval_from_workflow_inputs endStr attr = .ok iv →
      workflowRun endStr ⟨attr, .ok runId, (insert_into_snowflake_activity inputs env).2⟩ =
        ⟨1, [⟨runId, "Completed"⟩], .ok ()⟩ := by
  have h1 : insert_into_snowflake_activity inputs env = ([Ev.countQuery], .ok ()) := by
    simp [insert_into_snowflake_activity, halive, hzero]
  refine ⟨h1, by rw [h1]; rfl, ?_⟩
  intro endStr attr runId iv hres
  rw [h1]
  simp [workflowRun, hres]

/-- C5 amended witness: a concrete zero-count run yields only the count
query and a Completed run record. -/
theorem zero_rows_no_destination_statements_witness :
    insert_into_snowflake_activity
      ⟨2, "user", "password", "account", "db", "wh", "schema", "events", "s", "e"⟩
      ⟨true, 0, [], 0, fun _ => false⟩ = ([Ev.countQuery], .ok ()) ∧
    workflowRun (some "2023-04-20 14:40:00")
      ⟨none, .ok 9,
       (insert_into_snowflake_activity
         ⟨2, "user", "password", "account", "db", "wh", "schema", "events", "s", "e"⟩
         ⟨true, 0, [], 0, fun _ => false⟩).2⟩ =
      ⟨1, [⟨9, "Completed"⟩], .ok ()⟩ := by
  obtain ⟨g1, _, g3⟩ := zero_rows_no_destination_statements
    ⟨2, "user", "password", "account", "db", "wh", "schema", "events", "s", "e"⟩
    ⟨true, 0, [], 0, fun _ => false⟩ rfl rfl
  exact ⟨g1, g3 (some "2023-04-20 14:40:00") none 9 (65030564400, 65030568000) rfl⟩

/-- C8: when the source-store liveness check fails, the activity raises
ConnectionError with an empty event trace — before the count query,
before any staging and before any destination statement — and the
workflow's retry policy for the insert activity lists ConnectionError
as non-retryable. -/
theorem connection_error_before_any_work (inputs : SnowflakeInsertInputs)
    (env : ActivityEnv) (hdead : env.isAlive = false) :
    insert_into_snowflake_activity inputs env = ([], .error .connectionError) ∧
    "ConnectionError" ∈ insert_non_retryable_error_types := by
  constructor
  · simp [insert_into_snowflake_activity, hdead]
  · simp [insert_non_retryable_error_types]

/-- C8 witness: a concrete dead-connection run. -/
theorem connection_error_before_any_work_witness :
    insert_into_snowflake_activity
      ⟨1, "user", "password", "account", "db", "wh", "schema", "events", "s", "e"⟩
      ⟨false, 5, [RowItem.row ⟨"u1", "login", "d1", 1, 50, "\x7b\x7d"⟩],
        0, fun _ => false⟩ = ([], .error .connectionError) ∧
    "ConnectionError" ∈ insert_non_retryable_error_types :=
  connection_error_before_any_work
    ⟨1, "user", "password", "account", "db", "wh", "schema", "events", "s", "e"⟩
    ⟨false, 5, [RowItem.row ⟨"u1", "login", "d1", 1, 50, "\x7b\x7d"⟩],
      0, fun _ => false⟩ rfl

/-- C9: on every exit path of the insert activity — any liveness
outcome, any stream contents (including falsy items and rows with
malformed properties) and any combination of failing remote
statements — once the Snowflake connection is opened it is closed, and
every temporary staging file that is opened is closed. -/
theorem resources_closed_on_every_exit (inputs : SnowflakeInsertInputs)
    (env : ActivityEnv) :
    (Ev.connOpen ∈ (insert_into_snowflake_activity inputs env).1 →
      Ev.connClose ∈ (insert_into_snowflake_activity inputs env).1) ∧
    ∀ j, Ev.bufOpen j ∈ (insert_into_snowflake_activity inputs env).1 →
      Ev.bufClose j ∈ (insert_into_snowflake_activity inputs env).1 := by
  unfold insert_into_snowflake_activity
  split_ifs with h1 h2 h3 h4 h5
  · simp
  · simp
  · simp
  · simp
  · simp
  · rcases hB : insertBody env inputs (initialState inputs) with ⟨st3, res⟩
    simp only [hB]
    have hinit : bufsClosed (initialState inputs).trace (initialState inputs).bufId := by
      intro j hj
      left
      simp [initialState] at hj
      simp [initialState, hj]
    have hclosed := insertBody_bufsClosed env inputs (initialState inputs) hinit
    rw [hB] at hclosed
    dsimp only at hclosed
    constructor
    · intro _
      exact List.mem_append_right _ (by simp)
    · intro j hj
      rcases List.mem_append.mp hj with hj1 | hj1
      · rcases hclosed j hj1 with h | h
        · subst h
          exact List.mem_append_right _ (by simp)
        · exact List.mem_append_left _ h
      · simp at hj1

/-- C9 witness: in a concrete failure-free run both the connection and
temporary file 0 are closed; the hypotheses of the closure theorem are
its concrete membership premises. -/
theorem resources_closed_on_every_exit_witness :
    Ev.connClose ∈ (insert_into_snowflake_activity
      ⟨1, "user", "password", "account", "db", "wh", "schema", "events", "s", "e"⟩
      ⟨true, 1, [RowItem.row ⟨"u1", "login", "d1", 1, 50, "\x7b\x7d"⟩],
        0, fun _ => false⟩).1 ∧
    Ev.bufClose 0 ∈ (insert_into_snowflake_activity
      ⟨1, "user", "password", "account", "db", "wh", "schema", "events", "s", "e"⟩
      ⟨true, 1, [RowItem.row ⟨"u1", "login", "d1", 1, 50, "\x7b\x7d"⟩],
        0, fun _ => false⟩).1 :=
  ⟨(resources_closed_on_every_exit
      ⟨1, "user", "password", "account", "db", "wh", "schema", "events", "s", "e"⟩
      ⟨true, 1, [RowItem.row ⟨"u1", "login", "d1", 1, 50, "\x7b\x7d"⟩],
        0, fun _ => false⟩).1 (by decide),
   (resources_closed_on_every_exit
      ⟨1, "user", "password", "account", "db", "wh", "schema", "events", "s", "e"⟩
      ⟨true, 1, [RowItem.row ⟨"u1", "login", "d1", 1, 50, "\x7b\x7d"⟩],
        0, fun _ => false⟩).2 0 (by decide)⟩

/-- C2 counterexample: a pipeline invocation that reaches the
run-creation step (create_export_run is invoked once) but whose run
creation raises never invokes update_export_run_status: the try/finally
around the insert activity (lines 259-289) begins only after the
create activity returned, so the claimed "exactly once regardless of
which upstream state subsequently failed" fails when CreatingRun itself
is the failing state. -/
theorem update_status_skipped_when_create_fails :
    (workflowRun (some "2023-04-20 14:40:00")
      ⟨none, .error (.remoteError 0), .ok ()⟩).createCalls = 1 ∧
    (workflowRun (some "2023-04-20 14:40:00")
      ⟨none, .error (.remoteError 0), .ok ()⟩).updateCalls = [] ∧
    (workflowRun (some "2023-04-20 14:40:00")
      ⟨none, .error (.remoteError 0), .ok ()⟩).result = .error (.remoteError 0) :=
  ⟨rfl, rfl, rfl⟩

/-- C2 amended: for every invocation whose run-creation step completes
successfully, update_export_run_status is invoked exactly once
regardless of whether the insert activity subsequently failed; the
status is Completed exactly when the insert activity completed without
raising, Failed otherwise, and in the failure case the original
exception is re-raised unchanged after the status update. -/
theorem update_status_once_after_successful_create
    (endStr : Option String) (env : WorkflowEnv) (runId : Nat) (iv : Int × Int)
    (hres : get_data_interval_from_workflow_inputs endStr env.searchAttr = .ok iv)
    (hcr : env.createResult = .ok runId) :
    (workflowRun endStr env).updateCalls =
      [⟨runId, match env.insertResult with
               | .ok _ => "Completed"
               | .error _ => "Failed"⟩] ∧
    (workflowRun endStr env).result = env.insertResult := by
  unfold workflowRun
  rw [hres, hcr]
  cases env.insertResult with
  | ok u => exact ⟨rfl, rfl⟩
  | error e => exact ⟨rfl, rfl⟩

/-- C2 amended witness: with a successful run creation and a failing
insert activity, exactly one Failed update is recorded and the original
exception is re-raised. -/
theorem update_status_once_after_successful_create_witness :
    (workflowRun (some "2023-04-20 14:40:00")
      ⟨none, .ok 5, .error .connectionError⟩).updateCalls = [⟨5, "Failed"⟩] ∧
    (workflowRun (some "2023-04-20 14:40:00")
      ⟨none, .ok 5, .error .connectionError⟩).result = .error .connectionError :=
  update_status_once_after_successful_create
    (some "2023-04-20 14:40:00") ⟨none, .ok 5, .error .connectionError⟩ 5
    (65030564400, 65030568000) rfl rfl

/-- C6 counterexample: with no explicit interval end and an
empty-string scheduled-start signal, the resolver does not fail with
the configuration error (TypeError): the empty string passes the
isinstance(str) check and datetime.fromisoformat raises ValueError
instead. -/
theorem empty_string_signal_not_config_error :
    get_data_interval_from_workflow_inputs none (some [SearchAttrVal.str ""]) =
      .error .valueError ∧
    (Except.error PyErr.valueError : Except PyErr (Int × Int)) ≠
      Except.error PyErr.typeError := by
  refine ⟨rfl, fun h => ?_⟩
  injection h with h2
  cases h2

/-- C6 amended: with no explicit interval end, a missing scheduled
start signal or a first value of a type other than string/datetime
fails with TypeError (the spec's ConfigurationError); an empty-string
first value instead passes the type check and fails with ValueError
from ISO-8601 parsing. -/
theorem interval_end_signal_errors (endStr : Option String)
    (attr : Option (List SearchAttrVal))
    (hend : endStr = none ∨ endStr = some "") :
    (attr = none →
      get_data_interval_from_workflow_inputs endStr attr = .error .typeError) ∧
    (∀ tl, attr = some (SearchAttrVal.other :: tl) →
      get_data_interval_from_workflow_inputs endStr attr = .error .typeError) ∧
    (∀ tl, attr = some (SearchAttrVal.str "" :: tl) →
      get_data_interval_from_workflow_inputs endStr attr = .error .valueError) := by
  rcases hend with h | h <;> subst h <;>
    exact ⟨fun h2 => by subst h2; rfl,
           fun tl h2 => by subst h2; rfl,
           fun tl h2 => by subst h2; rfl⟩

/-- C6 amended witness: a missing signal fails with TypeError and an
integer-typed signal value fails with TypeError. -/
theorem interval_end_signal_errors_witness :
    get_data_interval_from_workflow_inputs none none = .error .typeError ∧
    get_data_interval_from_workflow_inputs none (some [SearchAttrVal.other]) =
      .error .typeError :=
  ⟨(interval_end_signal_errors none none (Or.inl rfl)).1 rfl,
   (interval_end_signal_errors none (some [SearchAttrVal.other]) (Or.inl rfl)).2.1 [] rfl⟩

/-- C7: every successfully resolved interval is the half-open window
(end - 3600 seconds, end), i.e. the fixed window is one hour ending at
the resolved end; the resolver is a pure function, so equal inputs give
equal intervals by construction. -/
theorem interval_is_end_minus_one_hour (endStr : Option String)
    (attr : Option (List SearchAttrVal)) (s e : Int)
    (h : get_data_interval_from_workflow_inputs endStr attr = .ok (s, e)) :
    s = e - 3600 := by
  unfold get_data_interval_from_workflow_inputs at h
  cases hE : resolveIntervalEnd endStr attr with
  | error e2 => rw [hE] at h; cases h
  | ok t =>
    rw [hE] at h
    injection h with h2
    have hs : t - 3600 = s := congrArg Prod.fst h2
    have he : t = e := congrArg Prod.snd h2
    omega

/-- C7 witness: the explicit end 2023-04-20 14:40:00 resolves to the
interval whose start is exactly one hour (3600 seconds) earlier. -/
theorem interval_is_end_minus_one_hour_witness :
    (65030564400 : Int) = 65030568000 - 3600 :=
  interval_is_end_minus_one_hour (some "2023-04-20 14:40:00") none
    65030564400 65030568000 rfl

end SnowflakeBatchExport
